import Mathlib

/-!
A verification development for the WhisperKey hotkey/recording program.

The first part embeds `whisperkey/keyboard_handler.py`: the per-device
listener loop (`KeyboardHandler._listen`), modifier canonicalization
(`KeyboardHandler._normalise` with `_MOD_ALIASES`) and chord recognition
(`KeyboardHandler._check_combos`).

The second part embeds the session controller of `whisperkey/main.py`:
the `WhisperKey` recording state (`is_recording`, `cleanup_mode`, `frames`,
`stream`, `audio`, `recording_thread`, `transcripts`) and the operations
`start_recording`, `stop_recording`, `toggle_recording`,
`toggle_recording_cleanup`, `_add_transcript_to_history`,
`get_transcripts` and `copy_transcript_from_history`.  External
collaborators (file save, transcription API, cleanup LLM, clipboard,
notifications, tray icon) are modelled at their call/return boundary: the
fallible ones as `Option String`-valued functions in an `Env` record, the
one-way ones as emitted `Action`s.
-/

namespace WhisperKey

/-- evdev key codes used by the program.  `KEY_LEFTCTRL = 29`,
`KEY_LEFTALT = 56`, `KEY_G = 34`, `KEY_F = 33`, `KEY_RIGHTCTRL = 97`,
`KEY_RIGHTALT = 100`. -/
def KEY_LEFTCTRL : Nat := 29

def KEY_LEFTALT : Nat := 56

def KEY_G : Nat := 34

def KEY_F : Nat := 33

def KEY_RIGHTCTRL : Nat := 97

def KEY_RIGHTALT : Nat := 100

/-- `START_STOP_KEYS = {KEY_LEFTCTRL, KEY_LEFTALT, KEY_G}` — the
Ctrl+Alt+G chord for standard transcription (keyboard_handler.py:20). -/
def START_STOP_KEYS : Finset Nat := {KEY_LEFTCTRL, KEY_LEFTALT, KEY_G}

/-- `CLEANUP_KEYS = {KEY_LEFTCTRL, KEY_LEFTALT, KEY_F}` — the Ctrl+Alt+F
chord for cleanup transcription (keyboard_handler.py:22). -/
def CLEANUP_KEYS : Finset Nat := {KEY_LEFTCTRL, KEY_LEFTALT, KEY_F}

/-- `KeyboardHandler._normalise`: map right-hand modifiers to their
left-hand equivalents via `_MOD_ALIASES` (keyboard_handler.py:25-28,
152-154); any other code maps to itself. -/
def normalise (code : Nat) : Nat :=
  if code = KEY_RIGHTCTRL then KEY_LEFTCTRL
  else if code = KEY_RIGHTALT then KEY_LEFTALT
  else code

/-- The three evdev key-transition states the listener distinguishes:
`key_down`, `key_hold` (autorepeat) and `key_up`. -/
inductive KeyState where
  | down
  | hold
  | up
  deriving DecidableEq, Repr

/-- One `EV_KEY` event as consumed by `KeyboardHandler._listen`: the raw
key code and its transition state. -/
structure KeyEvent where
  code : Nat
  state : KeyState
  deriving DecidableEq, Repr

/-- Which registered chord fired. -/
inductive Combo where
  | standard
  | cleanup
  deriving DecidableEq, Repr

/-- `KeyboardHandler._check_combos` (keyboard_handler.py:193-201): if
`START_STOP_KEYS ⊆ pressed` invoke the standard callback; otherwise, if a
cleanup callback was registered (`cleanupCb`) and `CLEANUP_KEYS ⊆ pressed`,
invoke the cleanup callback; otherwise nothing fires. -/
def check_combos (cleanupCb : Bool) (pressed : Finset Nat) : Option Combo :=
  if START_STOP_KEYS ⊆ pressed then some Combo.standard
  else if cleanupCb = true ∧ CLEANUP_KEYS ⊆ pressed then some Combo.cleanup
  else none

/-- One iteration of the event loop in `KeyboardHandler._listen`
(keyboard_handler.py:166-183): normalise the code; on `key_down` or
`key_hold` add it to `_pressed` and run `_check_combos` on the updated
set; on `key_up` discard it (`Finset.erase`, a no-op when absent) and
check nothing.  Returns the new pressed set and the combo fired, if any. -/
def handlerStep (cleanupCb : Bool) (pressed : Finset Nat) (ev : KeyEvent) :
    Finset Nat × Option Combo :=
  let code := normalise ev.code
  match ev.state with
  | KeyState.down => let p := insert code pressed; (p, check_combos cleanupCb p)
  | KeyState.hold => let p := insert code pressed; (p, check_combos cleanupCb p)
  | KeyState.up => (pressed.erase code, none)

/-- The pressed set after replaying a list of events from `p0` on a single
device's listener loop. -/
def replayFrom (cleanupCb : Bool) (p0 : Finset Nat) (evs : List KeyEvent) :
    Finset Nat :=
  evs.foldl (fun p ev => (handlerStep cleanupCb p ev).1) p0

/-- The chronological list of callback invocations produced by replaying a
list of events from `p0`: each `_check_combos` call contributes the combo
it fired, if any. -/
def firesFrom (cleanupCb : Bool) (p0 : Finset Nat) :
    List KeyEvent → List Combo
  | [] => []
  | ev :: rest =>
      (handlerStep cleanupCb p0 ev).2.toList ++
        firesFrom cleanupCb (handlerStep cleanupCb p0 ev).1 rest

/-- Follows the spec's words (§8): the net set of currently-down keys
after canonicalization — down/repeat inserts the canonicalized code, up
removes it. -/
def netKeysSpec (p0 : Finset Nat) (evs : List KeyEvent) : Finset Nat :=
  evs.foldl
    (fun s ev =>
      match ev.state with
      | KeyState.down => insert (normalise ev.code) s
      | KeyState.hold => insert (normalise ev.code) s
      | KeyState.up => s.erase (normalise ev.code))
    p0

/-- One event delivered by the listener thread of device `dev`.  All
listener threads spawned by `setup_keyboard_listener`
(keyboard_handler.py:56-62) run `_listen` on the same `KeyboardHandler`
object, so they all read and mutate the single field `self._pressed`
(keyboard_handler.py:37, 180-183): the step is the shared-state
`handlerStep`, independent of `dev`. -/
def multi_step (cleanupCb : Bool) (pressed : Finset Nat) (dev : Nat)
    (ev : KeyEvent) : Finset Nat × Option Combo :=
  handlerStep cleanupCb pressed ev

/-- Replay a chronological interleaving of events tagged with the device
that delivered them, threading the single shared `_pressed` set. -/
def multi_replay (cleanupCb : Bool) (p0 : Finset Nat)
    (evs : List (Nat × KeyEvent)) : Finset Nat :=
  evs.foldl (fun p dev_ev => (multi_step cleanupCb p dev_ev.1 dev_ev.2).1) p0

/-- The pressed set that `_check_combos`, running in device `dev`'s
listener thread, reads: it always reads `self._pressed`, the one field
shared by every listener thread of the handler (keyboard_handler.py:195,
199). -/
def observed_pressed (dev : Nat) (pressed : Finset Nat) : Finset Nat :=
  pressed

/-- The event sequence down(Ctrl), down(Alt), down(G), hold(G): a chord
completed and then held long enough for one autorepeat. -/
def heldChordSeq : List KeyEvent :=
  [{ code := KEY_LEFTCTRL, state := KeyState.down },
   { code := KEY_LEFTALT, state := KeyState.down },
   { code := KEY_G, state := KeyState.down },
   { code := KEY_G, state := KeyState.hold }]

/-- Python truthiness of an optional string, as used by
`if not filename:`, `if not transcription:`, `if cleaned:` and
`if not raw_text:` in main.py: `None` and the empty string are falsy;
`usableText` keeps the value exactly when it is truthy. -/
def usableText (o : Option String) : Option String :=
  match o with
  | none => none
  | some s => if s = "" then none else some s

/-- One transcript history entry (main.py:219-222): a timestamp
(`datetime.datetime.now()`, modelled as a `Nat`) and the raw text. -/
structure TranscriptEntry where
  timestamp : Nat
  text : String
  deriving DecidableEq, Repr

/-- The external collaborators called by the controller, at their
call/return boundary: `FileHandler.save_recording` (returns a filename or
a falsy value), `transcribe_audio`'s API call (main.py:165-181, `none`
models the exception path), `cleanup_transcript`'s LLM call
(main.py:183-211, `none` models the exception/empty path), and the clock
behind `datetime.datetime.now()`. -/
structure Env where
  saveRecording : List Nat → Option String
  transcribe : String → Option String
  cleanup : String → Option String
  now : Nat

/-- Observable one-way effects emitted by the controller: tray phase
changes (`TrayIcon.set_recording/…`), desktop notifications
(`show_notification`) and clipboard writes (`pyperclip.copy`). -/
inductive Action where
  | traySetRecording
  | traySetProcessing
  | traySetIdle
  | traySetSuccess
  | notify (msg : String)
  | copyClip (text : String)
  deriving DecidableEq, Repr

/-- The mutable recording state of the `WhisperKey` object
(main.py:60-71): `is_recording`, `cleanup_mode`, the accumulated
`frames`, whether the `stream` / `audio` / `recording_thread` handles are
set, and the in-memory transcript history `transcripts`. -/
structure WKState where
  isRecording : Bool
  cleanupMode : Bool
  frames : List Nat
  hasStream : Bool
  hasAudio : Bool
  hasThread : Bool
  transcripts : List TranscriptEntry
  deriving DecidableEq, Repr

/-- `WhisperKey.start_recording` (main.py:263-324): if already recording,
log and return with nothing changed; otherwise clear `frames`, acquire
the audio handle, open the stream, set `is_recording = True`, start the
recording thread and show the recording tray state. -/
def start_recording (st : WKState) : WKState × List Action :=
  if st.isRecording = true then (st, [])
  else
    let st1 : WKState :=
      { st with
        frames := []
        hasAudio := true
        hasStream := true
        isRecording := true
        hasThread := true }
    (st1, [Action.traySetRecording])

/-- `WhisperKey._add_transcript_to_history` (main.py:216-226): append an
entry with the current timestamp and the transcript text. -/
def add_transcript_to_history (now : Nat) (st : WKState) (transcript : String) :
    WKState :=
  { st with
    transcripts := st.transcripts ++ [{ timestamp := now, text := transcript }] }

/-- `WhisperKey.get_transcripts` (main.py:228-230): the stored history. -/
def get_transcripts (st : WKState) : List TranscriptEntry :=
  st.transcripts

/-- `WhisperKey.stop_recording` (main.py:349-431).  If not recording,
log and return with nothing changed.  Otherwise clear `is_recording`,
join the recording thread, close the stream and audio handle, save the
recording; on a falsy filename set the tray idle and notify failure; else
set the tray to processing and transcribe; on falsy transcription set the
tray idle and notify failure; on success append the transcript to
history, copy the cleaned text when `cleanup_mode` is set and cleanup
produced a truthy result (falling back to the raw transcription
otherwise), reset `cleanup_mode` and show success. -/
def stop_recording (env : Env) (st : WKState) : WKState × List Action :=
  if st.isRecording = false then (st, [])
  else
    let st1 : WKState := { st with isRecording := false }
    match usableText (env.saveRecording st1.frames) with
    | none =>
        (st1, [Action.traySetIdle, Action.notify "Failed to save recording"])
    | some filename =>
        match usableText (env.transcribe filename) with
        | none =>
            (st1,
             [Action.traySetProcessing, Action.traySetIdle,
              Action.notify "Failed to transcribe recording"])
        | some transcription =>
            let st2 := add_transcript_to_history env.now st1 transcription
            let copied : String :=
              if st2.cleanupMode = true then
                match usableText (env.cleanup transcription) with
                | some cleaned => cleaned
                | none => transcription
              else transcription
            let st3 : WKState := { st2 with cleanupMode := false }
            (st3,
             [Action.traySetProcessing, Action.copyClip copied,
              Action.traySetSuccess])

/-- `WhisperKey.toggle_recording` (main.py:543-550): stop when recording,
else clear `cleanup_mode` and start. -/
def toggle_recording (env : Env) (st : WKState) : WKState × List Action :=
  if st.isRecording = true then stop_recording env st
  else start_recording { st with cleanupMode := false }

/-- `WhisperKey.toggle_recording_cleanup` (main.py:552-558): stop when
recording, else set `cleanup_mode` and start. -/
def toggle_recording_cleanup (env : Env) (st : WKState) : WKState × List Action :=
  if st.isRecording = true then stop_recording env st
  else start_recording { st with cleanupMode := true }

/-- `WhisperKey.copy_transcript_from_history` (main.py:232-261): return
silently when the index is out of range or the stored text is falsy;
otherwise copy either the raw text or, when `cleanup` is requested, the
cleanup collaborator's truthy result with fallback to the raw text, then
show tray success. -/
def copy_transcript_from_history (env : Env) (st : WKState) (index : Int)
    (cleanup : Bool) : List Action :=
  if index < 0 ∨ (st.transcripts.length : Int) ≤ index then []
  else
    let raw :=
      ((st.transcripts.get? index.toNat).getD { timestamp := 0, text := "" }).text
    if raw = "" then []
    else
      let toCopy : String :=
        if cleanup = true then
          match usableText (env.cleanup raw) with
          | some cleaned => cleaned
          | none => raw
        else raw
      [Action.copyClip toCopy, Action.traySetSuccess]

/-- The point read of the history store as implemented by the guard and
lookup of `copy_transcript_from_history` (main.py:238-241): `none` models
the early NotFound return on an out-of-range index. -/
def history_get (st : WKState) (index : Int) : Option TranscriptEntry :=
  if index < 0 ∨ (st.transcripts.length : Int) ≤ index then none
  else st.transcripts.get? index.toNat

/-- Append a batch of (timestamp, text) sessions to the history through
`_add_transcript_to_history`. -/
def appendAll (st : WKState) (items : List (Nat × String)) : WKState :=
  items.foldl (fun s it => add_transcript_to_history it.1 s it.2) st

/-- The entry that a successful session with timestamp `p.1` and
transcript `p.2` appends. -/
def mkEntry (p : Nat × String) : TranscriptEntry :=
  { timestamp := p.1, text := p.2 }

/-- The controller state during the Processing phase: `stop_recording`
sets `is_recording = False` at main.py:355 before the synchronous
save/transcribe/cleanup work (main.py:369-425), so while transcription is
in flight the flag is down, the handles are still set and the stopped
session's frames are still buffered. -/
def processingState : WKState :=
  { isRecording := false
    cleanupMode := false
    frames := [1, 2, 3]
    hasStream := true
    hasAudio := true
    hasThread := true
    transcripts := [] }

/-- A concrete environment whose collaborators all fail; `toggle_recording`
on a non-recording state never consults it. -/
def idleEnv : Env :=
  { saveRecording := fun _ => none
    transcribe := fun _ => none
    cleanup := fun _ => none
    now := 0 }

/-- A concrete environment where save and transcription succeed and the
cleanup collaborator fails. -/
def cleanupFailEnv : Env :=
  { saveRecording := fun _ => some "rec.wav"
    transcribe := fun _ => some "raw words"
    cleanup := fun _ => none
    now := 7 }

/-- A concrete recording-in-progress state with cleanup mode requested. -/
def recordingState : WKState :=
  { isRecording := true
    cleanupMode := true
    frames := [5]
    hasStream := true
    hasAudio := true
    hasThread := true
    transcripts := [{ timestamp := 1, text := "earlier" }] }

/-- A concrete environment where saving succeeds but transcription fails. -/
def transcribeFailEnv : Env :=
  { saveRecording := fun _ => some "rec.wav"
    transcribe := fun _ => none
    cleanup := fun _ => none
    now := 0 }

/-- A freshly started controller: nothing recorded, empty history. -/
def emptyHistState : WKState :=
  { isRecording := false
    cleanupMode := false
    frames := []
    hasStream := false
    hasAudio := false
    hasThread := false
    transcripts := [] }

/-- Two concrete successful sessions to replay into the history store. -/
def histItems : List (Nat × String) := [(3, "first"), (4, "second")]

/-! ## Theorems -/

/-- Claim C5: `_check_combos` evaluates chords in fixed priority order,
STANDARD before CLEANUP, and fires the first whose full key set is a
subset of the pressed set: every pressed set containing the STANDARD keys
fires STANDARD — in particular {Ctrl, Alt, G, F}, which contains both
chords in full — and every pressed set containing neither chord in full
fires nothing. -/
theorem check_combos_priority_and_none :
    (∀ (cb : Bool) (p : Finset Nat), START_STOP_KEYS ⊆ p →
        check_combos cb p = some Combo.standard) ∧
    check_combos true
        ({KEY_LEFTCTRL, KEY_LEFTALT, KEY_G, KEY_F} : Finset Nat) =
      some Combo.standard ∧
    (∀ (cb : Bool) (p : Finset Nat), ¬ START_STOP_KEYS ⊆ p →
        ¬ CLEANUP_KEYS ⊆ p → check_combos cb p = none) := by
  refine ⟨?_, by decide, ?_⟩
  · intro cb p h
    simp [check_combos, h]
  · intro cb p h1 h2
    simp [check_combos, h1, h2]

/-- Witness for C5: the recognizer fires STANDARD on the four-key set and
nothing on {G} alone. -/
theorem check_combos_priority_and_none_witness :
    START_STOP_KEYS ⊆ ({KEY_LEFTCTRL, KEY_LEFTALT, KEY_G, KEY_F} : Finset Nat) ∧
    check_combos true
        ({KEY_LEFTCTRL, KEY_LEFTALT, KEY_G, KEY_F} : Finset Nat) =
      some Combo.standard ∧
    check_combos true ({KEY_G} : Finset Nat) = none :=
  ⟨by decide,
   check_combos_priority_and_none.1 true _ (by decide),
   check_combos_priority_and_none.2.2 true _ (by decide) (by decide)⟩

/-- Claim C6: replaying any sequence of down/repeat/up events through the
listener loop yields exactly the net set of currently-down keys after
canonicalization through the modifier-alias map, and a key-up for a key
whose canonical form is not in the set is a no-op. -/
theorem pressed_set_is_net_of_events :
    (∀ (cb : Bool) (p0 : Finset Nat) (evs : List KeyEvent),
        replayFrom cb p0 evs = netKeysSpec p0 evs) ∧
    (∀ (cb : Bool) (p0 : Finset Nat) (evs : List KeyEvent) (k : Nat),
        normalise k ∉ replayFrom cb p0 evs →
        replayFrom cb p0 (evs ++ [{ code := k, state := KeyState.up }]) =
          replayFrom cb p0 evs) := by
  constructor
  · intro cb p0 evs
    unfold replayFrom netKeysSpec
    apply List.foldl_ext
    intro p ev _
    cases h : ev.state <;> simp [handlerStep, h]
  · intro cb p0 evs k hk
    unfold replayFrom at hk ⊢
    rw [List.foldl_append]
    simp only [List.foldl_cons, List.foldl_nil, handlerStep]
    exact Finset.erase_eq_of_not_mem hk

/-- Witness for C6: after the held-chord sequence, releasing F (which was
never pressed) leaves the pressed set unchanged. -/
theorem pressed_set_is_net_of_events_witness :
    normalise KEY_F ∉ replayFrom true ∅ heldChordSeq ∧
    replayFrom true ∅ (heldChordSeq ++ [{ code := KEY_F, state := KeyState.up }]) =
      replayFrom true ∅ heldChordSeq :=
  ⟨by decide,
   pressed_set_is_net_of_events.2 true ∅ heldChordSeq KEY_F (by decide)⟩

/-- Claim C3 counterexample: replaying down(Ctrl), down(Alt), down(G) and
then a single autorepeat hold(G) invokes the trigger callback twice, not
once — `_listen` runs `_check_combos` on every down and hold event and
`_check_combos` has no edge detection, so the repeat event re-fires the
STANDARD callback although the pressed set did not change. -/
theorem held_chord_refires_cx :
    firesFrom true ∅ heldChordSeq = [Combo.standard, Combo.standard] := by
  decide

/-- Claim C3 amended: a hold (key-repeat) event for an already-pressed key
leaves the pressed set unchanged but re-fires the STANDARD callback
whenever the STANDARD chord's keys are all still down — the callback runs
once per down/hold event while the chord is held, not only on the first
completing transition. -/
theorem held_chord_refires_each_repeat :
    ∀ (cb : Bool) (p : Finset Nat) (k : Nat), normalise k ∈ p →
      START_STOP_KEYS ⊆ p →
      handlerStep cb p { code := k, state := KeyState.hold } =
        (p, some Combo.standard) := by
  intro cb p k hk hsub
  simp [handlerStep, Finset.insert_eq_self.2 hk, check_combos, hsub]

/-- Witness for the amended C3: a G repeat while Ctrl+Alt+G is held
re-fires STANDARD with the pressed set unchanged. -/
theorem held_chord_refires_each_repeat_witness :
    normalise KEY_G ∈ ({KEY_LEFTCTRL, KEY_LEFTALT, KEY_G} : Finset Nat) ∧
    handlerStep true ({KEY_LEFTCTRL, KEY_LEFTALT, KEY_G} : Finset Nat)
        { code := KEY_G, state := KeyState.hold } =
      (({KEY_LEFTCTRL, KEY_LEFTALT, KEY_G} : Finset Nat), some Combo.standard) :=
  ⟨by decide,
   held_chord_refires_each_repeat true _ KEY_G (by decide) (by decide)⟩

/-- Claim C4 counterexample: the pressed set is not per-device — all
listener threads of one `KeyboardHandler` share the single field
`self._pressed`, so a key-down delivered on device 0 changes the pressed
set that device 1's listener reads in `_check_combos`. -/
theorem pressed_set_shared_across_devices_cx :
    observed_pressed 1
        (multi_replay true ∅ [(0, { code := KEY_G, state := KeyState.down })]) ≠
      observed_pressed 1 (multi_replay true ∅ []) := by
  decide

/-- Claim C4 amended: every per-device listener of one `KeyboardHandler`
mutates and reads the same shared `self._pressed` set — the listener step
is independent of which device delivered the event, and a key-down on
device 0 changes the pressed set observed by device 1's listener. -/
theorem pressed_set_shared_across_devices :
    (∀ (cb : Bool) (p : Finset Nat) (d d' : Nat) (ev : KeyEvent),
        multi_step cb p d ev = multi_step cb p d' ev) ∧
    (∀ (cb : Bool) (p : Finset Nat) (k : Nat), normalise k ∉ p →
        observed_pressed 1
            (multi_step cb p 0 { code := k, state := KeyState.down }).1 ≠
          observed_pressed 1 p) := by
  constructor
  · intro cb p d d' ev
    rfl
  · intro cb p k hk
    simpa [multi_step, handlerStep, observed_pressed] using
      Finset.insert_ne_self.2 hk

/-- Witness for the amended C4: a G down on device 0 changes the (shared)
set device 1 observes. -/
theorem pressed_set_shared_across_devices_witness :
    normalise KEY_G ∉ (∅ : Finset Nat) ∧
    observed_pressed 1
        (multi_step true ∅ 0 { code := KEY_G, state := KeyState.down }).1 ≠
      observed_pressed 1 (∅ : Finset Nat) :=
  ⟨by decide, pressed_set_shared_across_devices.2 true ∅ KEY_G (by decide)⟩

/-- Every branch of an effective `stop_recording` leaves `is_recording`
cleared: it is set to `False` before any collaborator is called and never
set again. -/
theorem stop_recording_isRecording_false (env : Env) (st : WKState)
    (h : st.isRecording = true) :
    (stop_recording env st).1.isRecording = false := by
  unfold stop_recording
  rw [if_neg (by simp [h])]
  dsimp only
  split
  · rfl
  · split <;> rfl

/-- `stop_recording` never emits the recording tray state: no branch of it
starts a new recording. -/
theorem stop_recording_no_start_action (env : Env) (st : WKState) :
    Action.traySetRecording ∉ (stop_recording env st).2 := by
  unfold stop_recording
  split
  · simp
  · dsimp only
    split
    · simp
    · split <;> simp

/-- Claim C2: a chord event received while recording is a stop request no
matter which chord fired — both `toggle_recording` and
`toggle_recording_cleanup` run `stop_recording` on a recording state, the
result is no longer recording, and no new recording is started. -/
theorem chord_while_recording_stops :
    ∀ (env : Env) (st : WKState), st.isRecording = true →
      toggle_recording env st = stop_recording env st ∧
      toggle_recording_cleanup env st = stop_recording env st ∧
      (stop_recording env st).1.isRecording = false ∧
      Action.traySetRecording ∉ (stop_recording env st).2 := by
  intro env st h
  exact ⟨by simp [toggle_recording, h], by simp [toggle_recording_cleanup, h],
    stop_recording_isRecording_false env st h,
    stop_recording_no_start_action env st⟩

/-- Witness for C2: stopping the concrete recording session via either
toggle ends it. -/
theorem chord_while_recording_stops_witness :
    recordingState.isRecording = true ∧
    toggle_recording cleanupFailEnv recordingState =
      stop_recording cleanupFailEnv recordingState ∧
    (stop_recording cleanupFailEnv recordingState).1.isRecording = false :=
  ⟨rfl, (chord_while_recording_stops cleanupFailEnv recordingState rfl).1,
   (chord_while_recording_stops cleanupFailEnv recordingState rfl).2.2.1⟩

/-- Claim C10: `start_recording` while already recording and
`stop_recording` while not recording are guarded no-ops — the whole state
(frames, stream, audio handle, `is_recording`, recording thread, history)
is returned unchanged and no effect is emitted. -/
theorem toggle_guards_are_noops :
    (∀ st : WKState, st.isRecording = true → start_recording st = (st, [])) ∧
    (∀ (env : Env) (st : WKState), st.isRecording = false →
        stop_recording env st = (st, [])) := by
  constructor
  · intro st h
    simp [start_recording, h]
  · intro env st h
    simp [stop_recording, h]

/-- Witness for C10: both guards at concrete states. -/
theorem toggle_guards_are_noops_witness :
    recordingState.isRecording = true ∧
    start_recording recordingState = (recordingState, []) ∧
    processingState.isRecording = false ∧
    stop_recording idleEnv processingState = (processingState, []) :=
  ⟨rfl, toggle_guards_are_noops.1 recordingState rfl, rfl,
   toggle_guards_are_noops.2 idleEnv processingState rfl⟩

/-- Claim C1 counterexample: during the Processing phase `is_recording`
is already `False` (stop_recording clears it at main.py:355 before the
synchronous save/transcribe work), so a chord event delivered then — for
example from a second keyboard's listener thread — takes the start branch
of `toggle_recording` and begins a new recording: the phase changes and a
new session starts, so the event is not a no-op. -/
theorem chord_during_processing_starts_cx :
    (toggle_recording idleEnv processingState).1.isRecording = true ∧
    Action.traySetRecording ∈ (toggle_recording idleEnv processingState).2 := by
  decide

/-- Claim C1 amended: the code has no Processing-phase re-entrancy guard —
the only guard is `is_recording`, which is already `False` during
Processing, so a chord event delivered while Processing is treated as a
start request: `toggle_recording` clears `cleanup_mode` and runs
`start_recording`, which sets `is_recording` and shows the recording tray
state. -/
theorem chord_during_processing_starts_recording :
    ∀ (env : Env) (st : WKState), st.isRecording = false →
      toggle_recording env st = start_recording { st with cleanupMode := false } ∧
      (toggle_recording env st).1.isRecording = true ∧
      Action.traySetRecording ∈ (toggle_recording env st).2 := by
  intro env st h
  refine ⟨by simp [toggle_recording, h], ?_, ?_⟩ <;>
    simp [toggle_recording, h, start_recording]

/-- Witness for the amended C1: at the concrete Processing state the
chord starts a new recording. -/
theorem chord_during_processing_starts_recording_witness :
    processingState.isRecording = false ∧
    (toggle_recording idleEnv processingState).1.isRecording = true :=
  ⟨rfl,
   (chord_during_processing_starts_recording idleEnv processingState rfl).2.1⟩

/-- Claim C7: when cleanup is requested and the cleanup collaborator
fails (returns nothing usable), the clipboard receives exactly the raw
transcription, the session still succeeds (the raw transcript is appended
to history and tray success is shown), and the same fallback holds for
on-demand cleanup of a history entry. -/
theorem cleanup_failure_falls_back_to_raw :
    (∀ (env : Env) (st : WKState) (f t : String),
        st.isRecording = true → st.cleanupMode = true →
        usableText (env.saveRecording st.frames) = some f →
        usableText (env.transcribe f) = some t →
        usableText (env.cleanup t) = none →
        (stop_recording env st).2 =
          [Action.traySetProcessing, Action.copyClip t, Action.traySetSuccess] ∧
        (stop_recording env st).1.transcripts =
          st.transcripts ++ [{ timestamp := env.now, text := t }]) ∧
    (∀ (env : Env) (st : WKState) (i : Int) (e : TranscriptEntry),
        history_get st i = some e → e.text ≠ "" →
        usableText (env.cleanup e.text) = none →
        copy_transcript_from_history env st i true =
          [Action.copyClip e.text, Action.traySetSuccess]) := by
  constructor
  · intro env st f t hrec hmode hsave htr hcl
    constructor <;>
      simp [stop_recording, hrec, hsave, htr, hcl, hmode,
        add_transcript_to_history]
  · intro env st i e hget hne hcl
    unfold history_get at hget
    by_cases hg : i < 0 ∨ (st.transcripts.length : Int) ≤ i
    · simp [hg] at hget
    · rw [if_neg hg] at hget
      rw [List.get?_eq_getElem?] at hget
      unfold copy_transcript_from_history
      rw [if_neg hg]
      simp [hget, hne, hcl]

/-- Witness for C7: with the concrete failing-cleanup environment the raw
text is copied, both after a session and from history. -/
theorem cleanup_failure_falls_back_to_raw_witness :
    recordingState.isRecording = true ∧
    (stop_recording cleanupFailEnv recordingState).2 =
      [Action.traySetProcessing, Action.copyClip "raw words",
       Action.traySetSuccess] ∧
    copy_transcript_from_history cleanupFailEnv recordingState 0 true =
      [Action.copyClip "earlier", Action.traySetSuccess] :=
  ⟨rfl,
   (cleanup_failure_falls_back_to_raw.1 cleanupFailEnv recordingState
      "rec.wav" "raw words" rfl rfl rfl rfl rfl).1,
   cleanup_failure_falls_back_to_raw.2 cleanupFailEnv recordingState 0
     { timestamp := 1, text := "earlier" } rfl (by decide) rfl⟩

/-- Claim C8: when transcription fails, the history is exactly what it
was before the session, a failure notification is emitted, and the
controller is back to idle (not recording, idle tray state). -/
theorem transcription_failure_preserves_history :
    ∀ (env : Env) (st : WKState) (f : String),
      st.isRecording = true →
      usableText (env.saveRecording st.frames) = some f →
      usableText (env.transcribe f) = none →
      (stop_recording env st).1.transcripts = st.transcripts ∧
      (stop_recording env st).1.isRecording = false ∧
      Action.notify "Failed to transcribe recording" ∈ (stop_recording env st).2 ∧
      Action.traySetIdle ∈ (stop_recording env st).2 := by
  intro env st f h hsave htr
  refine ⟨?_, ?_, ?_, ?_⟩ <;> simp [stop_recording, h, hsave, htr]

/-- Witness for C8: the concrete failing transcription leaves the history
untouched and notifies failure. -/
theorem transcription_failure_preserves_history_witness :
    recordingState.isRecording = true ∧
    (stop_recording transcribeFailEnv recordingState).1.transcripts =
      recordingState.transcripts ∧
    Action.notify "Failed to transcribe recording" ∈
      (stop_recording transcribeFailEnv recordingState).2 :=
  ⟨rfl,
   (transcription_failure_preserves_history transcribeFailEnv recordingState
      "rec.wav" rfl rfl rfl).1,
   (transcription_failure_preserves_history transcribeFailEnv recordingState
      "rec.wav" rfl rfl rfl).2.2.1⟩

/-- Appending sessions through `_add_transcript_to_history` extends the
stored history in insertion order. -/
theorem get_transcripts_appendAll (st : WKState) (items : List (Nat × String)) :
    get_transcripts (appendAll st items) = st.transcripts ++ items.map mkEntry := by
  induction items generalizing st with
  | nil => simp [appendAll, get_transcripts]
  | cons p rest ih =>
      have h1 : appendAll st (p :: rest) =
          appendAll (add_transcript_to_history p.1 st p.2) rest := rfl
      rw [h1, ih]
      simp [add_transcript_to_history, mkEntry]

/-- Claim C9: starting from an empty history, after N successful sessions
`get_transcripts` returns exactly the N entries in insertion order; the
point read at index `i < N` returns the i-th appended entry; the read at
index N returns NotFound (`none`) and the corresponding
`copy_transcript_from_history` call does nothing rather than crashing. -/
theorem history_append_read :
    ∀ (st : WKState) (items : List (Nat × String)), st.transcripts = [] →
      get_transcripts (appendAll st items) = items.map mkEntry ∧
      (get_transcripts (appendAll st items)).length = items.length ∧
      (∀ n : Nat, n < items.length →
          history_get (appendAll st items) (n : Int) =
            (items.get? n).map mkEntry) ∧
      history_get (appendAll st items) (items.length : Int) = none ∧
      (∀ (env : Env) (cu : Bool),
          copy_transcript_from_history env (appendAll st items)
            (items.length : Int) cu = []) := by
  intro st items h0
  have htr : (appendAll st items).transcripts = items.map mkEntry := by
    have h := get_transcripts_appendAll st items
    simpa [get_transcripts, h0] using h
  refine ⟨by simpa [get_transcripts] using htr, by simp [get_transcripts, htr], ?_, ?_, ?_⟩
  · intro n hn
    have hg : ¬ ((n : Int) < 0 ∨
        ((appendAll st items).transcripts.length : Int) ≤ (n : Int)) := by
      push_neg
      refine ⟨Int.natCast_nonneg n, ?_⟩
      rw [htr]
      simp only [List.length_map]
      exact_mod_cast hn
    unfold history_get
    rw [if_neg hg, htr]
    simp [List.getElem?_map]
  · unfold history_get
    rw [if_pos]
    exact Or.inr (by rw [htr]; simp)
  · intro env cu
    unfold copy_transcript_from_history
    rw [if_pos]
    exact Or.inr (by rw [htr]; simp)

/-- Witness for C9: the two concrete sessions are stored in order, index
0 reads the first entry, and index 2 (= N) is NotFound. -/
theorem history_append_read_witness :
    get_transcripts (appendAll emptyHistState histItems) = histItems.map mkEntry ∧
    history_get (appendAll emptyHistState histItems) ((0 : Nat) : Int) =
      (histItems.get? 0).map mkEntry ∧
    history_get (appendAll emptyHistState histItems) (histItems.length : Int) =
      none :=
  ⟨(history_append_read emptyHistState histItems rfl).1,
   (history_append_read emptyHistState histItems rfl).2.2.1 0 (by decide),
   (history_append_read emptyHistState histItems rfl).2.2.2.1⟩

end WhisperKey
